import Mathlib

/-!
Shallow embedding of the dbeerer-cli scenario manager
(`internal/scenarios/manager.go`) and of the chart tarball downloader
(`internal/github/downloader.go`).

The Kubernetes ActiveScenario store is modelled as a name-keyed association
list; the dynamic-client primitives (get/create/delete/update-status by name)
are modelled faithfully.  External effects whose outcome the code merely
observes (git clone, presence of the chart directory in the clone, the Helm
install) are modelled by boolean outcome parameters in `InstallEnv`, and the
temporary directories created and removed by the install path are tracked in
an explicit list of existing directories.
-/

namespace DBeerer

instance {ε α : Type} [DecidableEq ε] [DecidableEq α] : DecidableEq (Except ε α) :=
  fun a b =>
    match a, b with
    | Except.ok x, Except.ok y =>
      if h : x = y then isTrue (by rw [h]) else isFalse (by intro hc; cases hc; exact h rfl)
    | Except.error x, Except.error y =>
      if h : x = y then isTrue (by rw [h]) else isFalse (by intro hc; cases hc; exact h rfl)
    | Except.ok _, Except.error _ => isFalse (by intro hc; cases hc)
    | Except.error _, Except.ok _ => isFalse (by intro hc; cases hc)

/-- Tar entry type flag: the Go code handles `tar.TypeDir` and `tar.TypeReg`
in its switch and silently skips every other flag. -/
inductive TarType where
  | dir
  | reg
  | symlink
  | hardlink
  | other
deriving Repr, DecidableEq

/-- One entry of the downloaded repository tarball. -/
structure TarEntry where
  name : String
  typeflag : TarType
  mode : Nat
  content : String
deriving Repr, DecidableEq

/-- A filesystem object materialized at the destination by extraction. -/
inductive FsNode where
  | dirNode (path : String) (mode : Nat)
  | fileNode (path : String) (mode : Nat) (content : String)
deriving Repr, DecidableEq

/-- `RepoName` constant from `downloader.go`. -/
def repoName : String := "playground-scenarios-charts"

/-- Character-list prefix test, the model of `strings.HasPrefix`. -/
def strHasPfx (s p : String) : Bool :=
  List.isPrefixOf p.data s.data

/-- Model of `strings.TrimPrefix`: drops `p` from the front of `s` when it is
a prefix, otherwise returns `s` unchanged. -/
def trimPfx (s p : String) : String :=
  if strHasPfx s p then String.mk (s.data.drop p.data.length) else s

/-- `expectedPrefix` from `extractScenario`: GitHub tarballs prefix every
path with `<repo>-<branch>/`, and the scenario lives in its own directory. -/
def expectedPfx (scenarioID : String) : String :=
  repoName ++ "-main/" ++ scenarioID ++ "/"

/-- Effect of one tar entry in `extractScenario`: entries outside the
expected prefix are skipped, the directory entry itself (empty relative
path) is skipped, directory and regular-file entries are re-rooted under
the destination with their original mode, and all other type flags fall
through the switch and produce nothing. -/
def extractEntry (scenarioID destPath : String) (hdr : TarEntry) : Option FsNode :=
  if strHasPfx hdr.name (expectedPfx scenarioID) then
    let relativePath := trimPfx hdr.name (expectedPfx scenarioID)
    if relativePath = "" then none
    else
      let targetPath := destPath ++ "/" ++ relativePath
      match hdr.typeflag with
      | TarType.dir => some (FsNode.dirNode targetPath hdr.mode)
      | TarType.reg => some (FsNode.fileNode targetPath hdr.mode hdr.content)
      | _ => none
  else none

/-- `extractScenario` from `downloader.go`: walks the tar entries in order
and materializes the matching ones; there is no count of matched entries,
so an entirely non-matching tarball still yields success. -/
def extractScenario (entries : List TarEntry) (scenarioID destPath : String) :
    Except String (List FsNode) :=
  Except.ok (entries.filterMap (extractEntry scenarioID destPath))

/-- The `spec` sub-object of a ScenarioDefinition resource: every field is
optional, exactly the fields `unstructuredToScenario` looks at. -/
structure SpecFields where
  name : Option String
  id : Option String
  description : Option String
  tags : Option (List String)
  features : Option (List String)
  helmChartLink : Option String
  helmChartDir : Option String
deriving Repr, DecidableEq

/-- A ScenarioDefinition list item as returned by the dynamic client; the
`spec` map may be absent entirely. -/
structure UnstructuredScenario where
  metaName : String
  spec : Option SpecFields
deriving Repr, DecidableEq

/-- `helmChart` sub-struct of `Scenario`. -/
structure HelmChartRef where
  link : String
  dir : String
deriving Repr, DecidableEq

/-- `Scenario` struct from `manager.go`. -/
structure Scenario where
  name : String
  id : String
  description : String
  tags : List String
  features : List String
  helmChart : HelmChartRef
deriving Repr, DecidableEq

/-- `unstructuredToScenario`: fails only when the `spec` map is absent; each
individual field is copied when present and left zero-valued otherwise (a
missing `id` does NOT make the record malformed). -/
def unstructuredToScenario (obj : UnstructuredScenario) : Except String Scenario :=
  match obj.spec with
  | none => Except.error "spec not found"
  | some sp =>
    Except.ok {
      name := sp.name.getD ""
      id := sp.id.getD ""
      description := sp.description.getD ""
      tags := sp.tags.getD []
      features := sp.features.getD []
      helmChart := { link := sp.helmChartLink.getD "", dir := sp.helmChartDir.getD "" } }

/-- `ListScenarios`: a failed cluster list is fatal; an item on which
`unstructuredToScenario` fails is skipped with a warning and the loop
continues. -/
def listScenarios (clusterList : Except String (List UnstructuredScenario)) :
    Except String (List Scenario) :=
  match clusterList with
  | Except.error e => Except.error ("failed to list scenario definitions: " ++ e)
  | Except.ok items =>
    Except.ok (items.filterMap (fun item => (unstructuredToScenario item).toOption))

/-- `GetScenario`: linear search of `ListScenarios` output by id. -/
def getScenario (clusterList : Except String (List UnstructuredScenario)) (id : String) :
    Except String Scenario :=
  match listScenarios clusterList with
  | Except.error e => Except.error e
  | Except.ok scenarios =>
    match scenarios.find? (fun s => s.id == id) with
    | some s => Except.ok s
    | none => Except.error ("scenario with ID " ++ id ++ " not found")

/-- `status` sub-object of the ActiveScenario resource, as written by
`UpdateActiveScenarioStatus`. -/
structure ActiveStatus where
  phase : String
  helmReleaseName : String
  startTime : Nat
  lastTransitionTime : Nat
  scenarioName : Option String
deriving Repr, DecidableEq

/-- An ActiveScenario resource object: `spec.scenarioId` plus the optional
`status` map (absent until the first status update). -/
structure ActiveObj where
  scenarioId : String
  status : Option ActiveStatus
deriving Repr, DecidableEq

/-- The cluster-side store of ActiveScenario resources, keyed by resource
name. -/
abbrev ActiveStore := List (String × ActiveObj)

/-- The fixed well-known singleton resource name used by every create, get,
delete and status update in `manager.go`. -/
def activeName : String := "current-playground-scenario"

/-- Dynamic-client Get by name. -/
def getObj (s : ActiveStore) (name : String) : Option ActiveObj :=
  (s.find? (fun p => p.1 == name)).map (fun p => p.2)

/-- Dynamic-client Create: fails when an object of that name already
exists. -/
def createObj (s : ActiveStore) (name : String) (o : ActiveObj) :
    Except String ActiveStore :=
  match getObj s name with
  | some _ => Except.error "already exists"
  | none => Except.ok (s ++ [(name, o)])

/-- Dynamic-client Delete: fails with not-found when the object is absent. -/
def deleteObj (s : ActiveStore) (name : String) : Except String ActiveStore :=
  match getObj s name with
  | some _ => Except.ok (s.filter (fun p => !(p.1 == name)))
  | none => Except.error "not found"

/-- `getHelmReleaseName` from `manager.go`. -/
def getHelmReleaseName (scenarioID : String) : String :=
  "devopsbeerer-" ++ scenarioID

/-- `getHelmNamespace` from `manager.go`. -/
def getHelmNamespace (scenarioID : String) : String :=
  "devopsbeerer-" ++ scenarioID

/-- The status map built by `UpdateActiveScenarioStatus`: phase and release
name as given, both timestamps set to the current clock, and the scenario
display name filled in only when the catalog lookup succeeds. -/
def mkStatus (clusterList : Except String (List UnstructuredScenario)) (clock : Nat)
    (scenarioID phase helmRelease : String) : ActiveStatus :=
  { phase := phase
    helmReleaseName := helmRelease
    startTime := clock
    lastTransitionTime := clock
    scenarioName :=
      match getScenario clusterList scenarioID with
      | Except.ok sc => some sc.name
      | Except.error _ => none }

/-- `UpdateActiveScenarioStatus`: gets the singleton by its fixed name
(error when absent), replaces the whole `status` map with a freshly built
one, and writes it back.  There is no comparison against the current phase
anywhere in this function. -/
def updateActiveScenarioStatus (clusterList : Except String (List UnstructuredScenario))
    (clock : Nat) (s : ActiveStore) (scenarioID phase helmRelease : String) :
    Except String ActiveStore :=
  match getObj s activeName with
  | none => Except.error "not found"
  | some _ =>
    Except.ok (s.map (fun p =>
      if p.1 == activeName then
        (p.1, { p.2 with status := some (mkStatus clusterList clock scenarioID phase helmRelease) })
      else p))

/-- A status update whose failure is only warned about (the
`fmt.Printf warning` pattern around `UpdateActiveScenarioStatus` calls in
`InstallScenario`). -/
def tryUpdateStatus (clusterList : Except String (List UnstructuredScenario))
    (clock : Nat) (s : ActiveStore) (scenarioID phase helmRelease : String) : ActiveStore :=
  match updateActiveScenarioStatus clusterList clock s scenarioID phase helmRelease with
  | Except.ok s1 => s1
  | Except.error _ => s

/-- A delete of the singleton whose error is ignored (the cleanup deletes
in the failure branches of `InstallScenario` discard the returned error). -/
def tryDelete (s : ActiveStore) : ActiveStore :=
  match deleteObj s activeName with
  | Except.ok s1 => s1
  | Except.error _ => s

/-- `ActiveScenarioInfo` struct from `manager.go`. -/
structure ActiveScenarioInfo where
  scenarioID : String
  scenarioName : String
  phase : String
deriving Repr, DecidableEq

/-- `GetActiveScenario`: gets the singleton by its fixed name (error when
absent) and projects spec/status fields, leaving absent fields as the empty
string. -/
def getActiveScenario (s : ActiveStore) : Except String ActiveScenarioInfo :=
  match getObj s activeName with
  | none => Except.error "no active scenario found"
  | some obj =>
    Except.ok {
      scenarioID := obj.scenarioId
      phase :=
        match obj.status with
        | some st => st.phase
        | none => ""
      scenarioName :=
        match obj.status with
        | some st => st.scenarioName.getD ""
        | none => "" }

/-- The record-creation block of `InstallScenario` (manager.go lines
160-186): create the singleton with the requested scenario id, then set
phase Pending via a status update whose failure is only warned about. -/
def beginInstall (clusterList : Except String (List UnstructuredScenario))
    (clock : Nat) (s : ActiveStore) (scenarioID : String) : Except String ActiveStore :=
  match createObj s activeName { scenarioId := scenarioID, status := none } with
  | Except.error e => Except.error ("failed to create active scenario: " ++ e)
  | Except.ok s1 =>
    Except.ok (tryUpdateStatus clusterList clock s1 scenarioID "Pending"
      (getHelmReleaseName scenarioID))

/-- Result of `UninstallScenario`: outcome, resulting store, number of Helm
uninstall invocations, and the store states observable after each mutation. -/
structure UninstallOut where
  res : Except String Unit
  active : ActiveStore
  helmUninstalls : Nat
  snaps : List ActiveStore
deriving Repr, DecidableEq

/-- `UninstallScenario`: errors without mutating anything when the singleton
is absent; otherwise runs the Helm uninstall (outcome only warned about),
deletes the singleton, and best-effort-deletes the namespace. -/
def uninstallScenario (active : ActiveStore) : UninstallOut :=
  match getObj active activeName with
  | none =>
    { res := Except.error "no active scenario found"
      active := active
      helmUninstalls := 0
      snaps := [] }
  | some _ =>
    match deleteObj active activeName with
    | Except.error _ =>
      { res := Except.error "failed to delete active scenario"
        active := active
        helmUninstalls := 1
        snaps := [] }
    | Except.ok s1 =>
      { res := Except.ok ()
        active := s1
        helmUninstalls := 1
        snaps := [s1] }

/-- Outcomes of the external effects an install drives: whether the git
clone succeeds, whether the chart directory exists inside the clone, and
whether the Helm install succeeds; `tempDir` is the fresh temporary
directory name `os.MkdirTemp` hands out for this operation. -/
structure InstallEnv where
  tempDir : String
  cloneOk : Bool
  chartDirPresent : Bool
  installOk : Bool
deriving Repr, DecidableEq

/-- Result of `downloadChart`: the chart path or an error, plus the list of
directories that exist afterwards. -/
structure DownloadOut where
  res : Except String String
  fs : List String
deriving Repr, DecidableEq

/-- `downloadChart`: makes a temp directory, clones the repository into it
(removing the temp directory again on clone failure), picks the chart
subdirectory (`helmChart.dir`, defaulting to the scenario id), and checks
it exists (removing the temp directory on failure).  On success both the
temp directory and the chart subdirectory exist and the chart path is
returned; the caller owns the cleanup. -/
def downloadChart (env : InstallEnv) (fs : List String) (scenario : Scenario) : DownloadOut :=
  if env.cloneOk then
    let chartDir := if scenario.helmChart.dir = "" then scenario.id else scenario.helmChart.dir
    let fullChartPath := env.tempDir ++ "/" ++ chartDir
    if env.chartDirPresent then
      { res := Except.ok fullChartPath, fs := fs ++ [env.tempDir, fullChartPath] }
    else
      { res := Except.error ("chart directory " ++ chartDir ++ " not found in repository")
        fs := fs }
  else
    { res := Except.error "failed to clone repository", fs := fs }

/-- `os.RemoveAll`: removes the path and everything below it. -/
def removeAll (fs : List String) (path : String) : List String :=
  fs.filter (fun q => !(q == path || strHasPfx q (path ++ "/")))

/-- Counters of external side effects performed by one operation. -/
structure Effects where
  downloads : Nat
  installs : Nat
  helmUninstalls : Nat
deriving Repr, DecidableEq

/-- The all-zero effect counter. -/
def noEffects : Effects :=
  { downloads := 0, installs := 0, helmUninstalls := 0 }

/-- Result of `InstallScenario`: outcome, resulting singleton store,
directories existing afterwards, side-effect counters, and the store
states observable after each mutation of the singleton store. -/
structure InstallOut where
  res : Except String Unit
  active : ActiveStore
  fs : List String
  eff : Effects
  snaps : List ActiveStore
deriving Repr, DecidableEq

/-- The part of `InstallScenario` from record creation onward (manager.go
lines 160-224): create the singleton, status Pending (warning-tolerant),
download the chart (deleting the record and returning the download error on
failure), status Deploying, Helm install (deleting the record and returning
the install error on failure, with NO removal of the chart directory,
because the `defer os.RemoveAll(chartPath)` at line 214 is only registered
after the install step returned successfully), status Running, and finally
the deferred `os.RemoveAll(chartPath)` on the successful return path. -/
def installFromCreate (env : InstallEnv)
    (clusterList : Except String (List UnstructuredScenario)) (clock : Nat)
    (active : ActiveStore) (fs : List String) (scenario : Scenario) (scenarioID : String)
    (eff0 : Effects) (snaps0 : List ActiveStore) : InstallOut :=
  match createObj active activeName { scenarioId := scenarioID, status := none } with
  | Except.error e =>
    { res := Except.error ("failed to create active scenario: " ++ e)
      active := active, fs := fs, eff := eff0, snaps := snaps0 }
  | Except.ok s1 =>
    let rel := getHelmReleaseName scenarioID
    let s2 := tryUpdateStatus clusterList clock s1 scenarioID "Pending" rel
    let dl := downloadChart env fs scenario
    let eff1 : Effects :=
      { downloads := eff0.downloads + 1
        installs := eff0.installs
        helmUninstalls := eff0.helmUninstalls }
    match dl.res with
    | Except.error e =>
      let s3 := tryDelete s2
      { res := Except.error ("failed to download chart: " ++ e)
        active := s3, fs := dl.fs, eff := eff1, snaps := snaps0 ++ [s1, s2, s3] }
    | Except.ok chartPath =>
      let s3 := tryUpdateStatus clusterList clock s2 scenarioID "Deploying" rel
      let eff2 : Effects :=
        { downloads := eff1.downloads
          installs := eff1.installs + 1
          helmUninstalls := eff1.helmUninstalls }
      if env.installOk then
        let s4 := tryUpdateStatus clusterList clock s3 scenarioID "Running" rel
        { res := Except.ok ()
          active := s4, fs := removeAll dl.fs chartPath, eff := eff2
          snaps := snaps0 ++ [s1, s2, s3, s4] }
      else
        let s4 := tryDelete s3
        { res := Except.error "failed to install chart"
          active := s4, fs := dl.fs, eff := eff2, snaps := snaps0 ++ [s1, s2, s3, s4] }

/-- `InstallScenario`: verify the scenario exists in the catalog; when the
singleton already exists with the same scenario id return success
immediately (no download, no install, no mutation); when it exists with a
different id, best-effort uninstall the old scenario first; then proceed
with creation, download and install. -/
def installScenario (env : InstallEnv)
    (clusterList : Except String (List UnstructuredScenario)) (clock : Nat)
    (active : ActiveStore) (fs : List String) (scenarioID : String) : InstallOut :=
  match getScenario clusterList scenarioID with
  | Except.error e =>
    { res := Except.error ("scenario " ++ scenarioID ++ " not found: " ++ e)
      active := active, fs := fs, eff := noEffects, snaps := [] }
  | Except.ok scenario =>
    match getObj active activeName with
    | some existing =>
      if existing.scenarioId == scenarioID then
        { res := Except.ok (), active := active, fs := fs, eff := noEffects, snaps := [] }
      else
        let u := uninstallScenario active
        installFromCreate env clusterList clock u.active fs scenario scenarioID
          { downloads := 0, installs := 0, helmUninstalls := u.helmUninstalls } u.snaps
    | none =>
      installFromCreate env clusterList clock active fs scenario scenarioID noEffects []

/-- World state threaded through a sequence of CLI operations. -/
structure SysState where
  clusterList : Except String (List UnstructuredScenario)
  clock : Nat
  active : ActiveStore
  fs : List String
deriving Repr, DecidableEq

/-- One CLI lifecycle operation. -/
inductive Op where
  | installOp (env : InstallEnv) (scenarioID : String)
  | uninstallOp
deriving Repr, DecidableEq

/-- Run one operation, returning the new state and the singleton-store
states observable during the operation. -/
def runOp (st : SysState) : Op → SysState × List ActiveStore
  | Op.installOp env scenarioID =>
    let o := installScenario env st.clusterList st.clock st.active st.fs scenarioID
    ({ clusterList := st.clusterList, clock := st.clock + 1, active := o.active, fs := o.fs },
      o.snaps)
  | Op.uninstallOp =>
    let o := uninstallScenario st.active
    ({ clusterList := st.clusterList, clock := st.clock + 1, active := o.active, fs := st.fs },
      o.snaps)

/-- Run a sequence of operations, collecting every observable
singleton-store state. -/
def runOps (st : SysState) : List Op → SysState × List ActiveStore
  | [] => (st, [])
  | op :: ops =>
    let r1 := runOp st op
    let r2 := runOps r1.1 ops
    (r2.1, r1.2 ++ r2.2)

/-- Every entry of the store carries the fixed well-known name. -/
def OnlyActiveName (s : ActiveStore) : Prop :=
  ∀ p ∈ s, p.1 = activeName

/-- The store invariant: every entry is the well-known singleton and there
is at most one of it. -/
def StoreInv (s : ActiveStore) : Prop :=
  OnlyActiveName s ∧ s.length ≤ 1

instance (s : ActiveStore) : Decidable (OnlyActiveName s) := by
  unfold OnlyActiveName; infer_instance

instance (s : ActiveStore) : Decidable (StoreInv s) := by
  unfold StoreInv; infer_instance

/-- Catalog entry for scenario-a used in concrete evaluations. -/
def uA : UnstructuredScenario :=
  { metaName := "scenario-a"
    spec := some
      { name := some "Scenario A", id := some "scenario-a", description := some "Demo A"
        tags := none, features := none, helmChartLink := none, helmChartDir := none } }

/-- Catalog entry for scenario-b used in concrete evaluations. -/
def uB : UnstructuredScenario :=
  { metaName := "scenario-b"
    spec := some
      { name := some "Scenario B", id := some "scenario-b", description := some "Demo B"
        tags := none, features := none, helmChartLink := none, helmChartDir := none } }

/-- A catalog item that has a `spec` but no `id` field. -/
def uNoId : UnstructuredScenario :=
  { metaName := "broken"
    spec := some
      { name := some "Broken", id := none, description := none
        tags := none, features := none, helmChartLink := none, helmChartDir := none } }

/-- A catalog item with no `spec` object at all. -/
def uNoSpec : UnstructuredScenario :=
  { metaName := "nospec", spec := none }

/-- Parse result of `uA`. -/
def scenA : Scenario :=
  { name := "Scenario A", id := "scenario-a", description := "Demo A"
    tags := [], features := [], helmChart := { link := "", dir := "" } }

/-- Parse result of `uB`. -/
def scenB : Scenario :=
  { name := "Scenario B", id := "scenario-b", description := "Demo B"
    tags := [], features := [], helmChart := { link := "", dir := "" } }

/-- Parse result of `uNoId`: not skipped, returned with an empty id. -/
def scenNoId : Scenario :=
  { name := "Broken", id := "", description := ""
    tags := [], features := [], helmChart := { link := "", dir := "" } }

/-- A two-scenario catalog. -/
def catalogAB : Except String (List UnstructuredScenario) :=
  Except.ok [uA, uB]

/-- Install environment where every external step succeeds. -/
def envOkT : InstallEnv :=
  { tempDir := "/tmp/devopsbeerer-chart-0", cloneOk := true, chartDirPresent := true
    installOk := true }

/-- Install environment where the Helm install step fails after a
successful chart download. -/
def envInstallFailT : InstallEnv :=
  { tempDir := "/tmp/devopsbeerer-chart-0", cloneOk := true, chartDirPresent := true
    installOk := false }

/-- A store already holding the singleton for scenario-a, no status yet. -/
def storeA : ActiveStore :=
  [(activeName, { scenarioId := "scenario-a", status := none })]

/-- A store holding the singleton for scenario-a in phase Running. -/
def storeRunning : ActiveStore :=
  [(activeName,
    { scenarioId := "scenario-a"
      status := some
        { phase := "Running", helmReleaseName := "devopsbeerer-scenario-a"
          startTime := 0, lastTransitionTime := 0, scenarioName := none } })]

/-- The store produced by `beginInstall catalogAB 0 [] "scenario-a"`. -/
def storePendingA : ActiveStore :=
  [(activeName,
    { scenarioId := "scenario-a"
      status := some
        { phase := "Pending", helmReleaseName := "devopsbeerer-scenario-a"
          startTime := 0, lastTransitionTime := 0, scenarioName := some "Scenario A" } })]

/-- Tar entry of scenario-a in the synthetic tarball. -/
def entA : TarEntry :=
  { name := "playground-scenarios-charts-main/scenario-a/Chart.yaml"
    typeflag := TarType.reg, mode := 420, content := "apiVersion: v2" }

/-- Tar entry of scenario-b in the synthetic tarball. -/
def entB : TarEntry :=
  { name := "playground-scenarios-charts-main/scenario-b/Chart.yaml"
    typeflag := TarType.reg, mode := 420, content := "apiVersion: v2" }

/-- A symbolic-link tar entry inside the scenario-a directory. -/
def entSym : TarEntry :=
  { name := "playground-scenarios-charts-main/scenario-a/link"
    typeflag := TarType.symlink, mode := 511, content := "" }

/-- A concrete operation sequence used for the singleton-invariant witness:
install scenario-a, switch to scenario-b, uninstall. -/
def opsW : List Op :=
  [Op.installOp envOkT "scenario-a", Op.installOp envOkT "scenario-b", Op.uninstallOp]

/-- The initial world for the concrete runs: two-scenario catalog, empty
singleton store, no temp directories. -/
def st0 : SysState :=
  { clusterList := catalogAB, clock := 0, active := [], fs := [] }

theorem getObj_eq_none_iff (s : ActiveStore) (name : String) :
    getObj s name = none ↔ ∀ p ∈ s, p.1 ≠ name := by
  simp [getObj, List.find?_eq_none]

theorem getObj_append_singleton (s : ActiveStore) (name : String) (o : ActiveObj)
    (h : getObj s name = none) : getObj (s ++ [(name, o)]) name = some o := by
  have hall := (getObj_eq_none_iff s name).1 h
  induction s with
  | nil => simp [getObj, List.find?]
  | cons p rest ih =>
    have hp : (p.1 == name) = false := by
      simpa using hall p (by simp)
    have hrest : ∀ q ∈ rest, q.1 ≠ name := fun q hq => hall q (by simp [hq])
    have ih2 := ih ((getObj_eq_none_iff rest name).2 hrest) hrest
    simpa [getObj, List.find?, hp] using ih2

theorem getObj_filter_not_name (s : ActiveStore) (name : String) :
    getObj (s.filter (fun p => !(p.1 == name))) name = none := by
  rw [getObj_eq_none_iff]
  intro p hp
  have h2 := (List.mem_filter.1 hp).2
  simpa using h2

theorem getObj_tryDelete (s : ActiveStore) : getObj (tryDelete s) activeName = none := by
  unfold tryDelete deleteObj
  cases h : getObj s activeName with
  | none => simp [h]
  | some o => simp [h, getObj_filter_not_name]

theorem getObj_map_setStatus (s : ActiveStore) (st : ActiveStatus) :
    getObj (s.map (fun p =>
        if p.1 == activeName then (p.1, { p.2 with status := some st }) else p)) activeName
      = (getObj s activeName).map (fun o => { o with status := some st }) := by
  induction s with
  | nil => simp [getObj]
  | cons p rest ih =>
    by_cases hp : p.1 = activeName
    · simp [getObj, List.find?, hp]
    · have hp2 : (p.1 == activeName) = false := by simpa using hp
      simpa [getObj, List.find?, hp2] using ih

theorem getObj_tryUpdate (c : Except String (List UnstructuredScenario)) (k : Nat)
    (s : ActiveStore) (id ph rel : String) :
    getObj (tryUpdateStatus c k s id ph rel) activeName =
      (getObj s activeName).map
        (fun o => { o with status := some (mkStatus c k id ph rel) }) := by
  unfold tryUpdateStatus updateActiveScenarioStatus
  cases h : getObj s activeName with
  | none => simp [h]
  | some o =>
    simp only [h]
    rw [getObj_map_setStatus, h]

theorem onlyActiveName_filter {s : ActiveStore} (f : String × ActiveObj → Bool)
    (h : OnlyActiveName s) : OnlyActiveName (s.filter f) :=
  fun p hp => h p (List.mem_filter.1 hp).1

theorem storeInv_filter {s : ActiveStore} (f : String × ActiveObj → Bool)
    (h : StoreInv s) : StoreInv (s.filter f) :=
  ⟨onlyActiveName_filter f h.1, le_trans (List.length_filter_le _ _) h.2⟩

theorem storeInv_create {s : ActiveStore} (o : ActiveObj)
    (hinv : StoreInv s) (h : getObj s activeName = none) :
    StoreInv (s ++ [(activeName, o)]) := by
  have hnil : s = [] := by
    cases s with
    | nil => rfl
    | cons p rest =>
      exact absurd (hinv.1 p (by simp)) ((getObj_eq_none_iff _ _).1 h p (by simp))
  subst hnil
  constructor
  · intro p hp
    simp at hp
    rw [hp]
  · simp

theorem storeInv_map_setStatus {s : ActiveStore} (st : ActiveStatus) (hinv : StoreInv s) :
    StoreInv (s.map (fun p =>
      if p.1 == activeName then (p.1, { p.2 with status := some st }) else p)) := by
  constructor
  · intro p hp
    obtain ⟨q, hq, rfl⟩ := List.mem_map.1 hp
    by_cases h : q.1 = activeName
    · simp [h]
    · have h2 : (q.1 == activeName) = false := by simpa using h
      simpa [h2] using hinv.1 q hq
  · simpa using hinv.2

theorem storeInv_tryUpdate (c : Except String (List UnstructuredScenario)) (k : Nat)
    {s : ActiveStore} (id ph rel : String) (hinv : StoreInv s) :
    StoreInv (tryUpdateStatus c k s id ph rel) := by
  unfold tryUpdateStatus updateActiveScenarioStatus
  cases h : getObj s activeName with
  | none => simpa [h] using hinv
  | some o =>
    simp only [h]
    exact storeInv_map_setStatus _ hinv

theorem storeInv_tryDelete {s : ActiveStore} (hinv : StoreInv s) :
    StoreInv (tryDelete s) := by
  unfold tryDelete deleteObj
  cases h : getObj s activeName with
  | none => simpa [h] using hinv
  | some o =>
    simp only [h]
    exact storeInv_filter _ hinv

theorem createObj_ok_elim {s s1 : ActiveStore} {o : ActiveObj}
    (h : createObj s activeName o = Except.ok s1) :
    getObj s activeName = none ∧ s1 = s ++ [(activeName, o)] := by
  unfold createObj at h
  cases hg : getObj s activeName with
  | some _ => rw [hg] at h; cases h
  | none => rw [hg] at h; cases h; exact ⟨rfl, rfl⟩

theorem uninstall_inv {s : ActiveStore} (hinv : StoreInv s) :
    StoreInv (uninstallScenario s).active ∧
      ∀ t ∈ (uninstallScenario s).snaps, StoreInv t := by
  unfold uninstallScenario deleteObj
  cases h : getObj s activeName with
  | none =>
    simp only [h]
    exact ⟨hinv, by simp⟩
  | some o =>
    simp only [h]
    refine ⟨storeInv_filter _ hinv, ?_⟩
    intro t ht
    simp at ht
    rw [ht]
    exact storeInv_filter _ hinv

theorem uninstall_active_of_some {s : ActiveStore} {o : ActiveObj}
    (h : getObj s activeName = some o) :
    (uninstallScenario s).active = s.filter (fun p => !(p.1 == activeName)) := by
  unfold uninstallScenario deleteObj
  simp [h]

theorem installFromCreate_inv (env : InstallEnv)
    (c : Except String (List UnstructuredScenario)) (k : Nat)
    {a : ActiveStore} (fs : List String) (sc : Scenario) (id : String)
    (eff0 : Effects) {snaps0 : List ActiveStore}
    (hinv : StoreInv a) (hsn : ∀ t ∈ snaps0, StoreInv t) :
    StoreInv (installFromCreate env c k a fs sc id eff0 snaps0).active ∧
      ∀ t ∈ (installFromCreate env c k a fs sc id eff0 snaps0).snaps, StoreInv t := by
  unfold installFromCreate
  cases hc : createObj a activeName { scenarioId := id, status := none } with
  | error e => simp only [hc]; exact ⟨hinv, hsn⟩
  | ok s1 =>
    obtain ⟨hg, rfl⟩ := createObj_ok_elim hc
    simp only [hc]
    have h1 : StoreInv (a ++ [(activeName, { scenarioId := id, status := none })]) :=
      storeInv_create _ hinv hg
    have h2 : StoreInv (tryUpdateStatus c k
        (a ++ [(activeName, { scenarioId := id, status := none })]) id "Pending"
        (getHelmReleaseName id)) := storeInv_tryUpdate _ _ _ _ _ h1
    cases hd : (downloadChart env fs sc).res with
    | error e =>
      simp only [hd]
      refine ⟨storeInv_tryDelete h2, ?_⟩
      intro t ht
      simp only [List.mem_append, List.mem_cons, List.mem_singleton] at ht
      rcases ht with ht | ht | ht | ht | ht
      · exact hsn t ht
      · rw [ht]; exact h1
      · rw [ht]; exact h2
      · rw [ht]; exact storeInv_tryDelete h2
      · cases ht
    | ok chartPath =>
      simp only [hd]
      have h3 : StoreInv (tryUpdateStatus c k (tryUpdateStatus c k
          (a ++ [(activeName, { scenarioId := id, status := none })]) id "Pending"
          (getHelmReleaseName id)) id "Deploying" (getHelmReleaseName id)) :=
        storeInv_tryUpdate _ _ _ _ _ h2
      by_cases hi : env.installOk
      · rw [if_pos hi]
        refine ⟨storeInv_tryUpdate _ _ _ _ _ h3, ?_⟩
        intro t ht
        simp only [List.mem_append, List.mem_cons, List.mem_singleton] at ht
        rcases ht with ht | ht | ht | ht | ht | ht
        · exact hsn t ht
        · rw [ht]; exact h1
        · rw [ht]; exact h2
        · rw [ht]; exact h3
        · rw [ht]; exact storeInv_tryUpdate _ _ _ _ _ h3
        · cases ht
      · rw [if_neg hi]
        refine ⟨storeInv_tryDelete h3, ?_⟩
        intro t ht
        simp only [List.mem_append, List.mem_cons, List.mem_singleton] at ht
        rcases ht with ht | ht | ht | ht | ht | ht
        · exact hsn t ht
        · rw [ht]; exact h1
        · rw [ht]; exact h2
        · rw [ht]; exact h3
        · rw [ht]; exact storeInv_tryDelete h3
        · cases ht

theorem installScenario_inv (env : InstallEnv)
    (c : Except String (List UnstructuredScenario)) (k : Nat)
    {a : ActiveStore} (fs : List String) (id : String) (hinv : StoreInv a) :
    StoreInv (installScenario env c k a fs id).active ∧
      ∀ t ∈ (installScenario env c k a fs id).snaps, StoreInv t := by
  unfold installScenario
  cases hs : getScenario c id with
  | error e => simp only [hs]; exact ⟨hinv, by simp⟩
  | ok scenario =>
    simp only [hs]
    cases hg : getObj a activeName with
    | none =>
      exact installFromCreate_inv env c k fs scenario id noEffects hinv (by simp)
    | some existing =>
      dsimp only
      by_cases hid : (existing.scenarioId == id) = true
      · rw [if_pos hid]
        exact ⟨hinv, by simp⟩
      · rw [if_neg hid]
        obtain ⟨hu1, hu2⟩ := uninstall_inv hinv
        exact installFromCreate_inv env c k fs scenario id _ hu1 hu2

theorem runOp_inv (st : SysState) (op : Op) (h : StoreInv st.active) :
    StoreInv (runOp st op).1.active ∧ ∀ t ∈ (runOp st op).2, StoreInv t := by
  cases op with
  | installOp env scenarioID =>
    exact installScenario_inv env st.clusterList st.clock st.fs scenarioID h
  | uninstallOp =>
    exact uninstall_inv h

theorem runOps_inv (ops : List Op) :
    ∀ st : SysState, StoreInv st.active →
      StoreInv (runOps st ops).1.active ∧ ∀ t ∈ (runOps st ops).2, StoreInv t := by
  induction ops with
  | nil =>
    intro st h
    exact ⟨h, by simp [runOps]⟩
  | cons op ops ih =>
    intro st h
    obtain ⟨h1, h2⟩ := runOp_inv st op h
    obtain ⟨h3, h4⟩ := ih (runOp st op).1 h1
    refine ⟨h3, ?_⟩
    intro t ht
    simp only [runOps, List.mem_append] at ht
    rcases ht with ht | ht
    · exact h2 t ht
    · exact h4 t ht

/-- C1: for every sequence of install and uninstall operations starting from a
store satisfying the singleton invariant, at most one ActiveScenario record
exists at every observable point (after each mutation of the store) and in the
final state: every creation and deletion uses the single fixed well-known name
`current-playground-scenario`. -/
theorem activeScenario_singleton (ops : List Op) (st : SysState)
    (h0 : StoreInv st.active) :
    (∀ t ∈ (runOps st ops).2, t.length ≤ 1) ∧ (runOps st ops).1.active.length ≤ 1 := by
  obtain ⟨h1, h2⟩ := runOps_inv ops st h0
  exact ⟨fun t ht => (h2 t ht).2, h1.2⟩

/-- Witness for `activeScenario_singleton` at a concrete three-operation run. -/
theorem activeScenario_singleton_witness :
    StoreInv st0.active ∧
      ((∀ t ∈ (runOps st0 opsW).2, t.length ≤ 1) ∧
        (runOps st0 opsW).1.active.length ≤ 1) :=
  ⟨by decide, activeScenario_singleton opsW st0 (by decide)⟩

/-- C2 counterexample: the ActiveScenario record exists with
`spec.scenarioId = "scenario-a"`, but the catalog does not contain
scenario-a, so `InstallScenario("scenario-a")` returns an error instead of
the claimed idempotent success (the catalog lookup precedes the
already-active check). -/
theorem install_idempotent_counterexample :
    (installScenario envOkT (Except.ok []) 0 storeA [] "scenario-a").res =
      Except.error "scenario scenario-a not found: scenario with ID scenario-a not found" := by
  decide

/-- C2 amended: when the requested scenario id also resolves in the catalog
and the existing record carries the same scenario id, `InstallScenario` is an
idempotent no-op: success, no chart download, no package-installer
invocation, no Helm uninstall, and the store, filesystem and observable
snapshots are untouched. -/
theorem install_idempotent (env : InstallEnv)
    (c : Except String (List UnstructuredScenario)) (k : Nat)
    (a : ActiveStore) (fs : List String) (id : String) (ex : ActiveObj) (sc : Scenario)
    (hcat : getScenario c id = Except.ok sc)
    (hact : getObj a activeName = some ex)
    (hid : ex.scenarioId = id) :
    installScenario env c k a fs id =
      { res := Except.ok (), active := a, fs := fs, eff := noEffects, snaps := [] } := by
  unfold installScenario
  simp only [hcat, hact]
  have hb : (ex.scenarioId == id) = true := by simpa using hid
  rw [if_pos hb]

/-- Witness for `install_idempotent` on the two-scenario catalog. -/
theorem install_idempotent_witness :
    getScenario catalogAB "scenario-a" = Except.ok scenA ∧
    getObj storeA activeName = some { scenarioId := "scenario-a", status := none } ∧
    installScenario envOkT catalogAB 0 storeA [] "scenario-a" =
      { res := Except.ok (), active := storeA, fs := [], eff := noEffects, snaps := [] } :=
  ⟨by decide, by decide,
    install_idempotent envOkT catalogAB 0 storeA [] "scenario-a"
      { scenarioId := "scenario-a", status := none } scenA (by decide) (by decide) rfl⟩

theorem installFromCreate_fail (env : InstallEnv)
    (c : Except String (List UnstructuredScenario)) (k : Nat)
    (a : ActiveStore) (fs : List String) (sc : Scenario) (id : String)
    (eff0 : Effects) (snaps0 : List ActiveStore)
    (ha : getObj a activeName = none)
    (hfail : env.cloneOk = false ∨ env.chartDirPresent = false ∨ env.installOk = false) :
    (∃ e, (installFromCreate env c k a fs sc id eff0 snaps0).res = Except.error e) ∧
      getObj (installFromCreate env c k a fs sc id eff0 snaps0).active activeName = none := by
  have hc : createObj a activeName { scenarioId := id, status := none } =
      Except.ok (a ++ [(activeName, { scenarioId := id, status := none })]) := by
    unfold createObj
    rw [ha]
  unfold installFromCreate
  simp only [hc]
  cases hd : (downloadChart env fs sc).res with
  | error e =>
    simp only [hd]
    exact ⟨⟨_, rfl⟩, getObj_tryDelete _⟩
  | ok chartPath =>
    simp only [hd]
    have hi : env.installOk = false := by
      rcases hfail with h | h | h
      · exfalso
        rw [downloadChart] at hd
        simp [h] at hd
      · exfalso
        rw [downloadChart] at hd
        cases hcl : env.cloneOk <;> simp [hcl, h] at hd
      · exact h
    rw [if_neg (by simp [hi])]
    exact ⟨⟨_, rfl⟩, getObj_tryDelete _⟩

/-- C3: if the requested scenario exists in the catalog, the existing record
(if any) is not for the same scenario id, and a step after record creation
fails (git clone, chart-directory lookup, or the Helm install), then
`InstallScenario` returns an error and the ActiveScenario record has been
deleted before the return, so `GetActiveScenario` afterwards observes
Absent. -/
theorem install_cleanupOnFailure (env : InstallEnv)
    (c : Except String (List UnstructuredScenario)) (k : Nat)
    (a : ActiveStore) (fs : List String) (id : String) (sc : Scenario)
    (hcat : getScenario c id = Except.ok sc)
    (hnoop : ∀ ex, getObj a activeName = some ex → ex.scenarioId ≠ id)
    (hfail : env.cloneOk = false ∨ env.chartDirPresent = false ∨ env.installOk = false) :
    (∃ e, (installScenario env c k a fs id).res = Except.error e) ∧
      getActiveScenario (installScenario env c k a fs id).active =
        Except.error "no active scenario found" := by
  unfold installScenario
  simp only [hcat]
  cases hg : getObj a activeName with
  | none =>
    dsimp only
    obtain ⟨h1, h2⟩ := installFromCreate_fail env c k a fs sc id noEffects [] hg hfail
    refine ⟨h1, ?_⟩
    unfold getActiveScenario
    rw [h2]
  | some ex =>
    dsimp only
    have hb : (ex.scenarioId == id) = false := by simpa using hnoop ex hg
    rw [if_neg (by simp [hb])]
    have hu : getObj (uninstallScenario a).active activeName = none := by
      rw [uninstall_active_of_some hg]
      exact getObj_filter_not_name _ _
    obtain ⟨h1, h2⟩ := installFromCreate_fail env c k _ fs sc id _ _ hu hfail
    refine ⟨h1, ?_⟩
    unfold getActiveScenario
    rw [h2]

/-- Witness for `install_cleanupOnFailure`: the Helm install step fails. -/
theorem install_cleanupOnFailure_witness :
    (∃ e, (installScenario envInstallFailT catalogAB 0 [] [] "scenario-a").res =
      Except.error e) ∧
    getActiveScenario (installScenario envInstallFailT catalogAB 0 [] [] "scenario-a").active =
      Except.error "no active scenario found" :=
  install_cleanupOnFailure envInstallFailT catalogAB 0 [] [] "scenario-a" scenA
    (by decide) (by intro ex hex; simp [getObj] at hex) (Or.inr (Or.inr rfl))

/-- C4 counterexample: with the record in phase Running, requesting the
strictly earlier phase Pending succeeds and overwrites the phase, instead
of returning an error and leaving the phase unchanged. -/
theorem transition_backward_counterexample :
    updateActiveScenarioStatus (Except.ok []) 1 storeRunning "scenario-a" "Pending"
        "devopsbeerer-scenario-a" =
      Except.ok [(activeName,
        { scenarioId := "scenario-a"
          status := some
            { phase := "Pending", helmReleaseName := "devopsbeerer-scenario-a"
              startTime := 1, lastTransitionTime := 1, scenarioName := none } })] := by
  decide

/-- C4 amended: the phase-update operation performs no ordering check at
all: whenever the singleton record exists it succeeds and overwrites the
status with the requested phase (even one strictly earlier than the current
phase); it errors only when no record exists. -/
theorem transition_unchecked (c : Except String (List UnstructuredScenario)) (k : Nat)
    (s : ActiveStore) (id q rel : String) (ex : ActiveObj)
    (h : getObj s activeName = some ex) :
    ∃ s1, updateActiveScenarioStatus c k s id q rel = Except.ok s1 ∧
      getObj s1 activeName =
        some { scenarioId := ex.scenarioId, status := some (mkStatus c k id q rel) } := by
  unfold updateActiveScenarioStatus
  simp only [h]
  refine ⟨_, rfl, ?_⟩
  rw [getObj_map_setStatus, h]
  rfl

/-- Witness for `transition_unchecked`: Running to Pending succeeds. -/
theorem transition_unchecked_witness :
    ∃ s1, updateActiveScenarioStatus (Except.ok []) 1 storeRunning "scenario-a" "Pending"
        "devopsbeerer-scenario-a" = Except.ok s1 ∧
      getObj s1 activeName = some
        { scenarioId := "scenario-a"
          status := some (mkStatus (Except.ok []) 1 "scenario-a" "Pending"
            "devopsbeerer-scenario-a") } :=
  transition_unchecked (Except.ok []) 1 storeRunning "scenario-a" "Pending"
    "devopsbeerer-scenario-a"
    { scenarioId := "scenario-a"
      status := some
        { phase := "Running", helmReleaseName := "devopsbeerer-scenario-a"
          startTime := 0, lastTransitionTime := 0, scenarioName := none } }
    (by decide)

/-- C5: after a successful `beginInstall` (record creation plus the Pending
status update, before any external installation side effect), an immediate
`GetActiveScenario` returns a record with the requested scenario id and
phase Pending. -/
theorem beginInstall_roundTrip (c : Except String (List UnstructuredScenario)) (k : Nat)
    (a : ActiveStore) (id : String) (s1 : ActiveStore)
    (h : beginInstall c k a id = Except.ok s1) :
    ∃ info, getActiveScenario s1 = Except.ok info ∧
      info.scenarioID = id ∧ info.phase = "Pending" := by
  unfold beginInstall at h
  cases hc : createObj a activeName { scenarioId := id, status := none } with
  | error e => rw [hc] at h; cases h
  | ok sB =>
    rw [hc] at h
    cases h
    obtain ⟨hg, rfl⟩ := createObj_ok_elim hc
    have h1 : getObj (a ++ [(activeName, { scenarioId := id, status := none })]) activeName =
        some { scenarioId := id, status := none } := getObj_append_singleton _ _ _ hg
    have h2 := getObj_tryUpdate c k (a ++ [(activeName, { scenarioId := id, status := none })])
      id "Pending" (getHelmReleaseName id)
    rw [h1] at h2
    unfold getActiveScenario
    rw [h2]
    exact ⟨_, rfl, rfl, rfl⟩

/-- Witness for `beginInstall_roundTrip` on an empty store. -/
theorem beginInstall_roundTrip_witness :
    ∃ info, getActiveScenario storePendingA = Except.ok info ∧
      info.scenarioID = "scenario-a" ∧ info.phase = "Pending" :=
  beginInstall_roundTrip catalogAB 0 [] "scenario-a" storePendingA (by decide)

theorem extractEntry_some_iff (scenarioID destPath : String) (e : TarEntry) (n : FsNode) :
    extractEntry scenarioID destPath e = some n ↔
      (strHasPfx e.name (expectedPfx scenarioID) = true ∧
        trimPfx e.name (expectedPfx scenarioID) ≠ "" ∧
        ((e.typeflag = TarType.dir ∧
            n = FsNode.dirNode
              (destPath ++ "/" ++ trimPfx e.name (expectedPfx scenarioID)) e.mode) ∨
         (e.typeflag = TarType.reg ∧
            n = FsNode.fileNode
              (destPath ++ "/" ++ trimPfx e.name (expectedPfx scenarioID)) e.mode
              e.content))) := by
  simp only [extractEntry]
  by_cases h1 : strHasPfx e.name (expectedPfx scenarioID) = true
  · rw [if_pos h1]
    by_cases h2 : trimPfx e.name (expectedPfx scenarioID) = ""
    · rw [if_pos h2]
      simp [h2]
    · rw [if_neg h2]
      cases ht : e.typeflag <;> simp [h1, h2, eq_comm]
  · rw [if_neg h1]
    simp [h1]

/-- C6: tarball extraction materializes exactly the directory and
regular-file entries whose path begins with the expected
`repo-main/scenarioID/` prefix (and whose relative path is nonempty),
re-rooted under the destination with their original permission bits;
entries outside the prefix produce nothing, and the extraction returns
success. -/
theorem extract_exactlyPrefixEntries (entries : List TarEntry)
    (scenarioID destPath : String) :
    ∃ nodes, extractScenario entries scenarioID destPath = Except.ok nodes ∧
      ∀ n, n ∈ nodes ↔ ∃ e, e ∈ entries ∧
        strHasPfx e.name (expectedPfx scenarioID) = true ∧
        trimPfx e.name (expectedPfx scenarioID) ≠ "" ∧
        ((e.typeflag = TarType.dir ∧
            n = FsNode.dirNode
              (destPath ++ "/" ++ trimPfx e.name (expectedPfx scenarioID)) e.mode) ∨
         (e.typeflag = TarType.reg ∧
            n = FsNode.fileNode
              (destPath ++ "/" ++ trimPfx e.name (expectedPfx scenarioID)) e.mode
              e.content)) := by
  refine ⟨_, rfl, ?_⟩
  intro n
  rw [List.mem_filterMap]
  constructor
  · rintro ⟨e, he, hx⟩
    exact ⟨e, he, (extractEntry_some_iff _ _ e n).1 hx⟩
  · rintro ⟨e, he, hx⟩
    exact ⟨e, he, (extractEntry_some_iff _ _ e n).2 hx⟩

/-- C7 counterexample: a tarball whose only entry belongs to scenario-b,
extracted for scenario-a, yields success with an empty destination instead
of a ChartNotFound error: `extractScenario` has no matched-entry counter. -/
theorem chartNotFound_counterexample :
    extractScenario [entB] "scenario-a" "/dest" = Except.ok [] := by decide

/-- C7 amended: when zero tarball entries match the expected prefix,
extraction returns success with an empty destination (no ChartNotFound
error exists in the code). -/
theorem extract_noMatch_okEmpty (entries : List TarEntry) (scenarioID destPath : String)
    (h : ∀ e ∈ entries, strHasPfx e.name (expectedPfx scenarioID) = false) :
    extractScenario entries scenarioID destPath = Except.ok [] := by
  unfold extractScenario
  congr 1
  rw [List.filterMap_eq_nil_iff]
  intro e he
  simp only [extractEntry]
  rw [if_neg (by simp [h e he])]

/-- Witness for `extract_noMatch_okEmpty`. -/
theorem extract_noMatch_okEmpty_witness :
    extractScenario [entB] "scenario-a" "/tmp/chart" = Except.ok [] :=
  extract_noMatch_okEmpty [entB] "scenario-a" "/tmp/chart" (by decide)

/-- C8 counterexample: of three catalog records, the middle one has a spec
but no `id` field; `ListScenarios` returns all three records (the broken
one with an empty id) rather than exactly the two well-formed ones:
`unstructuredToScenario` only fails when the whole spec is absent. -/
theorem catalogTolerance_counterexample :
    listScenarios (Except.ok [uA, uNoId, uB]) = Except.ok [scenA, scenNoId, scenB] := by
  decide

/-- C8 amended: a record whose `spec` object is entirely absent is skipped
and the list call still succeeds; a record missing only the `id` field is
not skipped (it is returned with an empty id, as the counterexample
shows). -/
theorem catalog_skipsOnlySpecless (pre post : List UnstructuredScenario)
    (item : UnstructuredScenario) (h : item.spec = none) :
    ∃ l, listScenarios (Except.ok (pre ++ item :: post)) = Except.ok l ∧
      listScenarios (Except.ok (pre ++ post)) = Except.ok l := by
  refine ⟨_, rfl, ?_⟩
  simp [listScenarios, List.filterMap_append, List.filterMap_cons, unstructuredToScenario, h,
    Except.toOption]

/-- Witness for `catalog_skipsOnlySpecless`. -/
theorem catalog_skipsOnlySpecless_witness :
    ∃ l, listScenarios (Except.ok ([uA] ++ uNoSpec :: [uB])) = Except.ok l ∧
      listScenarios (Except.ok ([uA] ++ [uB])) = Except.ok l :=
  catalog_skipsOnlySpecless [uA] [uB] uNoSpec rfl

/-- C9: with a successful download and a failed Helm install, the install
returns the install error but the temp clone directory AND the chart
subdirectory still exist afterwards (the deferred `os.RemoveAll(chartPath)`
is registered only after the install step); even on full success only the
chart subdirectory is removed and the temp clone directory is left behind. -/
theorem chartDir_leftBehind :
    (installScenario envInstallFailT catalogAB 0 [] [] "scenario-a").res =
        Except.error "failed to install chart" ∧
      (installScenario envInstallFailT catalogAB 0 [] [] "scenario-a").fs =
        ["/tmp/devopsbeerer-chart-0", "/tmp/devopsbeerer-chart-0/scenario-a"] ∧
      (installScenario envOkT catalogAB 0 [] [] "scenario-a").fs =
        ["/tmp/devopsbeerer-chart-0"] := by
  decide

/-- C10: a tar entry inside the scenario prefix whose type flag is neither
directory nor regular file (symlink, hardlink, or anything else) is
silently skipped: extraction of the tarball with the entry equals
extraction without it, and no error is produced. -/
theorem extract_skipsSpecialEntries (pre post : List TarEntry) (e : TarEntry)
    (scenarioID destPath : String)
    ( _hpfx : strHasPfx e.name (expectedPfx scenarioID) = true)
    (hdir : e.typeflag ≠ TarType.dir) (hreg : e.typeflag ≠ TarType.reg) :
    extractScenario (pre ++ e :: post) scenarioID destPath =
        extractScenario (pre ++ post) scenarioID destPath ∧
      ∃ nodes, extractScenario (pre ++ e :: post) scenarioID destPath =
        Except.ok nodes := by
  have hnone : extractEntry scenarioID destPath e = none := by
    simp [extractEntry]
  refine ⟨?_, ⟨_, rfl⟩⟩
  unfold extractScenario
  congr 1
  rw [List.filterMap_append, List.filterMap_append]
  congr 1
  rw [List.filterMap_cons_none hnone]

/-- Witness for `extract_skipsSpecialEntries` with a symlink entry. -/
theorem extract_skipsSpecialEntries_witness :
    (extractScenario ([entA] ++ entSym :: []) "scenario-a" "/dest" =
        extractScenario ([entA] ++ []) "scenario-a" "/dest" ∧
      ∃ nodes, extractScenario ([entA] ++ entSym :: []) "scenario-a" "/dest" =
        Except.ok nodes) :=
  extract_skipsSpecialEntries [entA] [] entSym "scenario-a" "/dest"
    (by decide) (by decide) (by decide)

end DBeerer
